import Mathlib

/-!
Shallow embedding of the portfolio backtest and growth-simulation tools
(`lib/tools/backtest.py`, `lib/tools/simulate.py`).

Numeric series are modelled over `ℚ` (exact arithmetic for the return
engine) and `ℝ` (for the growth simulator, whose compounding uses a real
power).  Python exceptions are modelled by explicit error values, and the
I/O the scripts perform (price fetches, CSV writes, plotting) is recorded
as an explicit effect trace.
-/

deriving instance DecidableEq for Except

namespace PortfolioWizard

/-- Bind on an `ok` value reduces to an application. -/
@[simp] theorem ok_bind {ε : Type u} {α β : Type v} (a : α)
    (f : α → Except ε β) : (Except.ok a : Except ε α) >>= f = f a := rfl

/-- Bind on an `error` value keeps the error. -/
@[simp] theorem error_bind {ε : Type u} {α β : Type v} (e : ε)
    (f : α → Except ε β) : (Except.error e : Except ε α) >>= f = .error e := rfl

/-- Mapping over an `ok` value applies the function. -/
@[simp] theorem except_map_ok {ε : Type u} {α β : Type v} (f : α → β)
    (a : α) : Except.map f (.ok a : Except ε α) = .ok (f a) := rfl

/-- Python exceptions that `backtest.py` can raise, by class and message. -/
inductive BTError where
  | assertionError (msg : String)
  | zeroDivisionError
  | valueError (msg : String)
  | unboundLocalError (varName : String)
deriving DecidableEq, Repr

/-- Side effects performed by the scripts: a price-data download for a list
of tickers, a CSV write to a file, a plot. -/
inductive Effect where
  | fetch (tickers : List String)
  | csvWrite (filename : String)
  | plot
deriving DecidableEq, Repr

/-- The two-column output table assembled at the end of `Backtest.run`
(`pd.concat([cum_strategy_returns, cum_benchmark_returns], axis=1)`). -/
structure ResultsTable where
  strategy : List ℚ
  benchmark : List ℚ
deriving DecidableEq, Repr

/-- The weight-initialisation logic of `Backtest.__init__` for one leg
(lines 32–44 of `backtest.py`).

* `weights = none` models `long_weights is None`: the leg gets
  `[1/len(stocks) for _ in range(len(stocks))]`; for an empty leg the
  comprehension body never runs, so no division happens and the result
  is `[]` (which `List.replicate 0 _` also is).
* `weights = some ws` models the branch
  `[w/sum(long_weights) for w in long_weights]` followed by the two
  `assert` statements.  Python raises `ZeroDivisionError` at the first
  division when `ws` is non-empty and `sum ws = 0`; the asserts raise
  `AssertionError` with the messages from the source.

The second assert, `assert sum(self.long_weights) == 1`, compares the
machine sum to 1 with exact equality.  Here that sum is the exact
rational sum, which equals 1 whenever `ws` is non-empty with nonzero
sum, so in this exact-arithmetic embedding the sum assert can fail only
for an empty supplied vector.  The Python program compares IEEE doubles,
where rounding can additionally make this assert fail on valid
non-empty vectors — ten equal weights normalize to ten doubles `0.1`
whose float sum is `0.9999999999999999`, so construction raises there
even though the sum is within any reasonable tolerance.  That
divergence between the exact-equality assert and the within-tolerance
invariant it is meant to enforce is recorded as the C4 code bug. -/
def initWeights (stocks : List String) (legMsgLen legMsgSum : String)
    (weights : Option (List ℚ)) : Except BTError (List ℚ) :=
  match weights with
  | none => .ok (List.replicate stocks.length ((stocks.length : ℚ))⁻¹)
  | some ws =>
    if ws ≠ [] ∧ ws.sum = 0 then
      .error .zeroDivisionError
    else
      let normalized := ws.map (fun w => w / ws.sum)
      if normalized.length ≠ stocks.length then
        .error (.assertionError legMsgLen)
      else if normalized.sum ≠ 1 then
        .error (.assertionError legMsgSum)
      else
        .ok normalized

/-- The state of a `Backtest` object after `__init__` succeeds. -/
structure Backtest where
  long_stocks : List String
  short_stocks : List String
  long_weights : List ℚ
  short_weights : List ℚ
  benchmark : String
  start_date : String
  end_date : String
  results : Option ResultsTable
deriving DecidableEq, Repr

/-- Constructor `Backtest.__init__` (lines 20–48 of `backtest.py`): store the stock
lists, set `results = None`, normalise each leg's weights (raising on a
zero weight sum or a length mismatch), store the dates and benchmark.
No validation of the dates and no emptiness check happens here. -/
def Backtest.init (long_stocks short_stocks : List String)
    (benchmark start_date end_date : String)
    (long_weights short_weights : Option (List ℚ)) :
    Except BTError Backtest := do
  let lw ← initWeights long_stocks
    "Long weights must be the same length as long stocks"
    "Long weights must sum to 1" long_weights
  let sw ← initWeights short_stocks
    "Short weights must be the same length as short stocks"
    "Short weights must sum to 1" short_weights
  .ok { long_stocks := long_stocks, short_stocks := short_stocks,
        long_weights := lw, short_weights := sw,
        benchmark := benchmark, start_date := start_date,
        end_date := end_date, results := none }

/-- Per-ticker return series (`prices / prices.shift(1) - 1` followed by
`returns.iloc[0] = 0`): entry `t ≥ 1` is `price[t]/price[t-1] - 1` and the
first entry is overwritten with `0`. -/
def returnsOfPrices (ps : List ℚ) : List ℚ :=
  match ps with
  | [] => []
  | p0 :: rest => 0 :: List.zipWith (fun prev cur => cur / prev - 1) (p0 :: rest) rest

/-- Column scaling `returns * weights` on a DataFrame: each per-ticker column is scaled by
the matching weight. -/
def scaleCols (cols : List (List ℚ)) (ws : List ℚ) : List (List ℚ) :=
  List.zipWith (fun col w => col.map (fun x => x * w)) cols ws

/-- Row summation `.sum(axis=1)` on a DataFrame with `T` rows: one scalar per date,
summing the columns at that date. -/
def sumAxis1 (cols : List (List ℚ)) (T : ℕ) : List ℚ :=
  (List.range T).map (fun t => (cols.map (fun col => col.getD t 0)).sum)

/-- Leg-level portfolio return series
(`(returns * weights).sum(axis=1)` in `Backtest.run`). -/
def portfolioReturns (cols : List (List ℚ)) (ws : List ℚ) (T : ℕ) : List ℚ :=
  sumAxis1 (scaleCols cols ws) T

/-- Running products of a list, seeded by `acc` (pandas `cumprod`). -/
def cumprodFrom : ℚ → List ℚ → List ℚ
  | _, [] => []
  | acc, x :: xs => (acc * x) :: cumprodFrom (acc * x) xs

/-- Cumulative return series: `(1 + r).cumprod() - 1`. -/
def cumulativeReturns (rs : List ℚ) : List ℚ :=
  (cumprodFrom 1 (rs.map (fun r => 1 + r))).map (fun x => x - 1)

/-- The strategy-combination `if/elif` chain of `Backtest.run`
(lines 82–89).  `lpr`/`spr` are the Python locals
`long_portfolio_returns`/`short_portfolio_returns`: `none` means the
local was never assigned (its leg's `if` block did not run), and reading
it then raises `UnboundLocalError`.  The final `else` raises
`ValueError("No stocks to trade")`. -/
def combineStrategy (long_stocks short_stocks : List String)
    (lpr spr : Option (List ℚ)) : Except BTError (List ℚ) :=
  if long_stocks ≠ [] ∧ short_stocks ≠ [] then
    match lpr, spr with
    | some l, some s => .ok (List.zipWith (fun a b => a - b) l s)
    | none, _ => .error (.unboundLocalError "long_portfolio_returns")
    | some _, none => .error (.unboundLocalError "short_portfolio_returns")
  else if long_stocks.length = 0 then
    match spr with
    | some s => .ok (s.map (fun x => -x))
    | none => .error (.unboundLocalError "short_portfolio_returns")
  else if short_stocks.length = 0 then
    match lpr with
    | some l => .ok l
    | none => .error (.unboundLocalError "long_portfolio_returns")
  else
    .error (.valueError "No stocks to trade")

/-- Method `Backtest._check_results`: raise if `results is None`. -/
def Backtest.check_results (bt : Backtest) : Except BTError Unit :=
  if bt.results = none then
    .error (.valueError "Results are not available. Please run the backtest first.")
  else
    .ok ()

/-- Method `Backtest.plot_results`: check results first, then plot.  The effect
trace is empty when the check raises (nothing is plotted). -/
def Backtest.plot_results (bt : Backtest) : Except BTError Unit × List Effect :=
  match bt.check_results with
  | .error e => (.error e, [])
  | .ok _ => (.ok (), [.plot])

/-- Method `Backtest.save_results`: check results first, then
`results.to_csv("backtest.csv", index=False)`.  The effect trace is empty
when the check raises (nothing is written). -/
def Backtest.save_results (bt : Backtest) : Except BTError Unit × List Effect :=
  match bt.check_results with
  | .error e => (.error e, [])
  | .ok _ => (.ok (), [.csvWrite "backtest.csv"])

/-- Number of rows of a fetched price DataFrame.  The source relies on all
fetched series sharing one date index, so the row count is the length of
the (first) column. -/
def frameLength (cols : List (List ℚ)) : ℕ := (cols.headD []).length

/-- One leg's block in `Backtest.run` (lines 66–76): when the leg is
non-empty, fetch its prices, compute per-ticker returns with the first row
forced to 0, and aggregate into the leg's portfolio return series; when
the leg is empty the block is skipped and the corresponding Python local
stays unassigned (`none`). -/
def legPortfolio (stocks : List String) (weights : List ℚ)
    (provider : String → List ℚ) : Option (List ℚ) × List Effect :=
  if stocks ≠ [] then
    let cols := stocks.map provider
    let rets := cols.map returnsOfPrices
    (some (portfolioReturns rets weights (frameLength cols)), [.fetch stocks])
  else
    (none, [])

/-- Method `Backtest.run` (lines 65–99): compute each populated leg's portfolio
returns, fetch the benchmark and compute its returns, combine the legs
into the strategy return series, compound both into cumulative series,
store the two-column table in `self.results`, and finally call
`self.save_results()` (which writes `backtest.csv`).  The second component
is the trace of side effects performed up to the point of return or
raise. -/
def Backtest.run (bt : Backtest) (provider : String → List ℚ) :
    Except BTError Backtest × List Effect :=
  let longRes := legPortfolio bt.long_stocks bt.long_weights provider
  let shortRes := legPortfolio bt.short_stocks bt.short_weights provider
  let benchmark_prices := provider bt.benchmark
  let benchmark_returns := returnsOfPrices benchmark_prices
  let effs := longRes.2 ++ shortRes.2 ++ [Effect.fetch [bt.benchmark]]
  match combineStrategy bt.long_stocks bt.short_stocks longRes.1 shortRes.1 with
  | .error e => (.error e, effs)
  | .ok strategy_returns =>
    let cum_strategy_returns := cumulativeReturns strategy_returns
    let cum_benchmark_returns := cumulativeReturns benchmark_returns
    let bt' := { bt with
      results := some { strategy := cum_strategy_returns,
                        benchmark := cum_benchmark_returns } }
    match bt'.save_results with
    | (.error e, es) => (.error e, effs ++ es)
    | (.ok _, es) => (.ok bt', effs ++ es)

/-- Python `str.upper()` (character-wise uppercasing). -/
def pyUpper (s : String) : String := ⟨s.data.map Char.toUpper⟩

/-- Python `str.strip()`: drop whitespace from both ends. -/
def pyStrip (s : String) : String :=
  ⟨((s.data.dropWhile Char.isWhitespace).reverse.dropWhile Char.isWhitespace).reverse⟩

/-- Python `str.endswith(suffix)`. -/
def pyEndsWith (s suffix : String) : Bool := List.isSuffixOf suffix.data s.data

/-- Python `len(str)` (number of characters). -/
def pyLen (s : String) : ℕ := s.data.length

/-- Python string concatenation (the f-string in `format_crypto_symbol`). -/
def pyConcat (a b : String) : String := ⟨a.data ++ b.data⟩

/-- The alias table `crypto_mappings` of `format_crypto_symbol`. -/
def crypto_mappings : List (String × String) :=
  [("BTC", "BTC-USD"), ("BITCOIN", "BTC-USD"),
   ("ETH", "ETH-USD"), ("ETHEREUM", "ETH-USD"),
   ("DOGE", "DOGE-USD"), ("XRP", "XRP-USD"),
   ("SOL", "SOL-USD"), ("ADA", "ADA-USD")]

/-- Function `format_crypto_symbol` (`simulate.py`, lines 16–45): uppercase and
strip the input; return the alias-table image when the normalised symbol
is a key; otherwise return it unchanged when it already ends in `-USD`;
otherwise append `-USD` when its length is at most 5; otherwise return it
unchanged. -/
def format_crypto_symbol (s : String) : String :=
  let symbol := pyStrip (pyUpper s)
  match crypto_mappings.lookup symbol with
  | some mapped => mapped
  | none =>
    if pyEndsWith symbol "-USD" then symbol
    else if pyLen symbol ≤ 5 then pyConcat symbol "-USD"
    else symbol

/-- Python exceptions raised by `simulate` (all are `ValueError`s in the
source; the message distinguishes them). -/
inductive SimError where
  | valueError (msg : String)
deriving DecidableEq, Repr

/-- The numeric core of `simulate` (lines 78–89): anchor at the first
actual price `initial_price` and first date, compute
`days_elapsed = (date - start_date).days` for every date of the actual
series, the per-date factor `annual_factor ** (day / 365)` with
`annual_factor = 1 + growth_rate/100`, and the simulated prices
`initial_price * factor`.  Dates are day numbers (`ℤ`); the exponent is a
real power. -/
noncomputable def simulatedPricesOf (actual_prices : List ℝ) (dates : List ℤ)
    (growth_rate : ℝ) : List ℝ :=
  let initial_price := actual_prices.headD 0
  let start_date := dates.headD 0
  let days_elapsed := dates.map (fun date => date - start_date)
  let annual_factor := 1 + growth_rate / 100
  let daily_factors := days_elapsed.map
    (fun (day : ℤ) => annual_factor ^ ((day : ℝ) / 365))
  daily_factors.map (fun factor => initial_price * factor)

/-- Function `simulate` (lines 47–126), with plotting elided (`visualize=False`
path): canonicalise the ticker, fetch its price history once, raise
`ValueError("No data found for ticker …")` when the frame is empty,
otherwise compute the simulated series; any exception escaping the `try`
body is wrapped as `ValueError("Error simulating …: …")` carrying the
canonicalised ticker and the underlying message.  The fetch oracle is
indexed by call number; the body performs exactly one fetch (`fetch 0`). -/
noncomputable def simulate (stock : String) (growth_rate : ℝ)
    (fetch : ℕ → Except String (List ℝ × List ℤ)) : Except SimError (List ℝ) :=
  let formatted_symbol := format_crypto_symbol stock
  let body : Except String (List ℝ) :=
    match fetch 0 with
    | .error e => .error e
    | .ok (actual_prices, dates) =>
      if actual_prices.isEmpty then
        .error ("No data found for ticker " ++ formatted_symbol)
      else
        .ok (simulatedPricesOf actual_prices dates growth_rate)
  match body with
  | .error e => .error (.valueError ("Error simulating " ++ formatted_symbol ++ ": " ++ e))
  | .ok v => .ok v

/-- Fixed price oracle used to evaluate concrete runs: ticker "A" costs
[100, 110], ticker "B" costs [50, 55], anything else (the benchmark)
[10, 10]. -/
def probeProvider : String → List ℚ :=
  fun t => if t = "A" then [100, 110] else if t = "B" then [50, 55] else [10, 10]

/-- Sum of a list after dividing every element by `s`. -/
theorem sum_map_div (ws : List ℚ) (s : ℚ) :
    (ws.map (fun w => w / s)).sum = ws.sum / s := by
  induction ws with
  | nil => simp
  | cons x xs ih => simp [ih, add_div]

/-- A supplied weight vector with nonzero exact sum normalizes to the
vector divided element-wise by its sum, whose exact sum is 1. -/
theorem normalized_sum_one (ws : List ℚ) (hsum : ws.sum ≠ 0) :
    (ws.map (fun w => w / ws.sum)).sum = 1 := by
  rw [sum_map_div, div_self hsum]

/-- C7: `format_crypto_symbol` uppercases and strips its input, then maps
it through the alias table when the normalised symbol is a key; otherwise
returns it unchanged when it already ends in "-USD"; otherwise appends
"-USD" when its length is at most 5; otherwise returns it unchanged.
Concrete boundary cases: "btc" gives "BTC-USD", "AAPL-USD" is unchanged,
the 5-character "ABCDE" gets "-USD" appended, and the 6-character
"ABCDEF" (no "-USD" suffix) is returned unchanged. -/
theorem C7_format_crypto_symbol_cases (s : String) :
    (∀ m, crypto_mappings.lookup (pyStrip (pyUpper s)) = some m →
      format_crypto_symbol s = m) ∧
    (crypto_mappings.lookup (pyStrip (pyUpper s)) = none →
      pyEndsWith (pyStrip (pyUpper s)) "-USD" = true →
      format_crypto_symbol s = pyStrip (pyUpper s)) ∧
    (crypto_mappings.lookup (pyStrip (pyUpper s)) = none →
      pyEndsWith (pyStrip (pyUpper s)) "-USD" = false →
      pyLen (pyStrip (pyUpper s)) ≤ 5 →
      format_crypto_symbol s = pyConcat (pyStrip (pyUpper s)) "-USD") ∧
    (crypto_mappings.lookup (pyStrip (pyUpper s)) = none →
      pyEndsWith (pyStrip (pyUpper s)) "-USD" = false →
      5 < pyLen (pyStrip (pyUpper s)) →
      format_crypto_symbol s = pyStrip (pyUpper s)) ∧
    format_crypto_symbol "btc" = "BTC-USD" ∧
    format_crypto_symbol "BITCOIN" = "BTC-USD" ∧
    format_crypto_symbol "eth" = "ETH-USD" ∧
    format_crypto_symbol "AAPL-USD" = "AAPL-USD" ∧
    format_crypto_symbol "ABCDE" = "ABCDE-USD" ∧
    format_crypto_symbol "ABCDEF" = "ABCDEF" := by
  refine ⟨?_, ?_, ?_, ?_, by decide, by decide, by decide, by decide,
    by decide, by decide⟩
  · intro m hm
    simp only [format_crypto_symbol, hm]
  · intro h1 h2
    simp only [format_crypto_symbol, h1, h2, if_true]
  · intro h1 h2 h3
    simp only [format_crypto_symbol, h1, h2, Bool.false_eq_true, if_false,
      if_pos h3]
  · intro h1 h2 h3
    simp only [format_crypto_symbol, h1, h2, Bool.false_eq_true, if_false,
      if_neg (Nat.not_le.mpr h3)]

/-- Witness for C7: the non-alias 4-character symbol "SHIB" falls under
the length-at-most-5 rule and gets "-USD" appended. -/
theorem C7_format_crypto_symbol_cases_witness :
    format_crypto_symbol "SHIB" = "SHIB-USD" := by
  have h := (C7_format_crypto_symbol_cases "SHIB").2.2.1
    (by decide) (by decide) (by decide)
  rw [h]; decide

/-- C1: evaluation of the strategy-combination cases of `Backtest.run` on
concrete data.  With both legs populated the strategy return series is the
long portfolio return minus the short one per date; with only the long
leg it is the long portfolio return; with only the short leg it is its
negation.  But with both legs empty the run raises
`UnboundLocalError("short_portfolio_returns")` after fetching the
benchmark — the `ValueError("No stocks to trade")` branch of the source is
unreachable, so the claimed configuration error is never produced. -/
theorem C1_strategy_case_evaluation :
    combineStrategy ["A"] ["B"] (some [0, 1/10]) (some [0, 1/10]) =
      .ok [0, 0] ∧
    combineStrategy ["A"] [] (some [0, 1/10]) none = .ok [0, 1/10] ∧
    combineStrategy [] ["B"] none (some [0, 1/10]) = .ok [0, -(1/10)] ∧
    (Backtest.init [] [] "^GSPC" "2023-01-01" "2024-01-01" none none).map
      (fun bt => bt.run probeProvider) =
      .ok (.error (.unboundLocalError "short_portfolio_returns"),
           [.fetch ["^GSPC"]]) ∧
    (Backtest.init [] [] "^GSPC" "2023-01-01" "2024-01-01" none none).map
      (fun bt => (bt.run probeProvider).1) ≠
      .ok (.error (.valueError "No stocks to trade")) := by
  have hinit0 : Backtest.init [] [] "^GSPC" "2023-01-01" "2024-01-01"
      none none = .ok ⟨[], [], [], [], "^GSPC", "2023-01-01", "2024-01-01",
        none⟩ := rfl
  refine ⟨?_, ?_, ?_, ?_, ?_⟩
  · simp only [combineStrategy]
    norm_num
  · simp only [combineStrategy]
    norm_num
  · simp only [combineStrategy]
    norm_num
  · rw [hinit0, except_map_ok]
    simp [Backtest.run, legPortfolio, combineStrategy]
  · rw [hinit0, except_map_ok]
    simp [Backtest.run, legPortfolio, combineStrategy]

/-- C4: evaluation at the failing input of the exact-equality sum
assert.  For ten equal raw weights over ten stocks, the normalised
vector is ten copies of 1/10; its exact sum is 1 — within any 1e-9
tolerance — so the claimed sanity invariant holds, the exact-arithmetic
constructor succeeds, and the equal-allocation default also yields 1/10
per ticker.  The Python constructor instead fails on this very input:
`assert sum(self.long_weights) == 1` compares IEEE doubles exactly, and
the float sum of ten normalised `0.1` doubles is `0.9999999999999999`,
so `__init__` raises `AssertionError("Long weights must sum to 1")` on
an input that satisfies the within-tolerance invariant the assert is
meant to enforce. -/
theorem C4_sum_assert_failing_input :
    (List.replicate 10 (1 : ℚ)).map
        (fun w => w / (List.replicate 10 (1 : ℚ)).sum) =
      List.replicate 10 (1 / 10) ∧
    (List.replicate 10 ((1 : ℚ) / 10)).sum = 1 ∧
    |(List.replicate 10 ((1 : ℚ) / 10)).sum - 1| ≤ 1 / 1000000000 ∧
    initWeights (List.replicate 10 "S")
      "Long weights must be the same length as long stocks"
      "Long weights must sum to 1" (some (List.replicate 10 1)) =
      .ok (List.replicate 10 (1 / 10)) ∧
    initWeights (List.replicate 10 "S")
      "Long weights must be the same length as long stocks"
      "Long weights must sum to 1" none =
      .ok (List.replicate 10 ((10 : ℚ))⁻¹) := by
  have hsum10 : (List.replicate 10 (1 : ℚ)).sum = 10 := by
    rw [List.sum_replicate, nsmul_eq_mul]
    norm_num
  have hmap : (List.replicate 10 (1 : ℚ)).map
      (fun w => w / (List.replicate 10 (1 : ℚ)).sum) =
      List.replicate 10 (1 / 10) := by
    rw [List.map_replicate, hsum10]
  have hsum1 : (List.replicate 10 ((1 : ℚ) / 10)).sum = 1 := by
    rw [List.sum_replicate, nsmul_eq_mul]
    norm_num
  refine ⟨hmap, hsum1, by rw [hsum1]; norm_num, ?_, ?_⟩
  · have hguard : ¬(List.replicate 10 (1 : ℚ) ≠ [] ∧
        (List.replicate 10 (1 : ℚ)).sum = 0) := by
      rw [hsum10]
      norm_num
    have hlen : ¬((List.replicate 10 (1 : ℚ)).map
        (fun w => w / (List.replicate 10 (1 : ℚ)).sum)).length ≠
        (List.replicate 10 "S").length := by
      simp
    simp only [initWeights, if_neg hguard, if_neg hlen, hmap, hsum1]
    simp
  · simp [initWeights]

/-- On an object whose `results` field is set, `save_results` passes the
check and writes the CSV. -/
theorem save_results_some (bt : Backtest) (r : ResultsTable)
    (h : bt.results = some r) :
    bt.save_results = (.ok (), [.csvWrite "backtest.csv"]) := by
  simp [Backtest.save_results, Backtest.check_results, h]

/-- On an object whose `results` field is set, `plot_results` passes the
check and plots. -/
theorem plot_results_some (bt : Backtest) (r : ResultsTable)
    (h : bt.results = some r) :
    bt.plot_results = (.ok (), [.plot]) := by
  simp [Backtest.plot_results, Backtest.check_results, h]

/-- On an object whose `results` field is unset, `save_results` raises and
performs no effect. -/
theorem save_results_none (bt : Backtest) (h : bt.results = none) :
    bt.save_results = (.error (.valueError
      "Results are not available. Please run the backtest first."), []) := by
  simp [Backtest.save_results, Backtest.check_results, h]

/-- On an object whose `results` field is unset, `plot_results` raises and
performs no effect. -/
theorem plot_results_none (bt : Backtest) (h : bt.results = none) :
    bt.plot_results = (.error (.valueError
      "Results are not available. Please run the backtest first."), []) := by
  simp [Backtest.plot_results, Backtest.check_results, h]

/-- A `Backtest` produced by a successful `__init__` has `results = None`. -/
theorem init_ok_results (ls ss : List String) (bm sd ed : String)
    (lw sw : Option (List ℚ)) (bt : Backtest)
    (h : Backtest.init ls ss bm sd ed lw sw = .ok bt) : bt.results = none := by
  unfold Backtest.init at h
  cases hl : initWeights ls "Long weights must be the same length as long stocks"
      "Long weights must sum to 1" lw with
  | error e => rw [hl] at h; simp at h
  | ok lw2 =>
    rw [hl, ok_bind] at h
    cases hs : initWeights ss "Short weights must be the same length as short stocks"
        "Short weights must sum to 1" sw with
    | error e => rw [hs] at h; simp at h
    | ok sw2 =>
      rw [hs, ok_bind] at h
      injection h with h2
      rw [← h2]

/-- The `Backtest` object a successful run hands back: the input with
`results` set to the compounded strategy and benchmark series. -/
def runResultObject (bt : Backtest) (provider : String → List ℚ)
    (strat : List ℚ) : Backtest :=
  { bt with results := some (ResultsTable.mk (cumulativeReturns strat)
      (cumulativeReturns (returnsOfPrices (provider bt.benchmark)))) }

/-- When the strategy combination succeeds, `run` returns the updated
object and the trace of leg fetches, benchmark fetch, and the CSV write
of its final `save_results` call. -/
theorem run_eq_of_combine_ok (bt : Backtest) (provider : String → List ℚ)
    (strat : List ℚ)
    (hc : combineStrategy bt.long_stocks bt.short_stocks
      (legPortfolio bt.long_stocks bt.long_weights provider).1
      (legPortfolio bt.short_stocks bt.short_weights provider).1 =
      .ok strat) :
    bt.run provider = (.ok (runResultObject bt provider strat),
      (legPortfolio bt.long_stocks bt.long_weights provider).2 ++
      (legPortfolio bt.short_stocks bt.short_weights provider).2 ++
      [Effect.fetch [bt.benchmark]] ++ [Effect.csvWrite "backtest.csv"]) := by
  have hsave : (⟨bt.long_stocks, bt.short_stocks, bt.long_weights,
      bt.short_weights, bt.benchmark, bt.start_date, bt.end_date,
      some (ResultsTable.mk (cumulativeReturns strat)
        (cumulativeReturns (returnsOfPrices (provider bt.benchmark))))⟩ :
      Backtest).save_results = (.ok (), [.csvWrite "backtest.csv"]) :=
    save_results_some _ _ rfl
  simp only [Backtest.run, hc, hsave]
  simp [runResultObject, List.append_assoc]

/-- When the strategy combination raises, `run` propagates the error with
the fetch trace accumulated so far and no CSV write. -/
theorem run_eq_of_combine_error (bt : Backtest)
    (provider : String → List ℚ) (e : BTError)
    (hc : combineStrategy bt.long_stocks bt.short_stocks
      (legPortfolio bt.long_stocks bt.long_weights provider).1
      (legPortfolio bt.short_stocks bt.short_weights provider).1 =
      .error e) :
    bt.run provider = (.error e,
      (legPortfolio bt.long_stocks bt.long_weights provider).2 ++
      (legPortfolio bt.short_stocks bt.short_weights provider).2 ++
      [Effect.fetch [bt.benchmark]]) := by
  simp only [Backtest.run, hc]

/-- Characterisation of a successful `Backtest.run`: the strategy
combination succeeded, the returned object is the input with `results`
set to the table of compounded strategy and benchmark series, and the
effect trace is the leg fetches, the benchmark fetch, and the CSV write
performed by the final `save_results` call. -/
theorem run_ok_destruct (bt : Backtest) (provider : String → List ℚ)
    (bt2 : Backtest) (effs : List Effect)
    (h : bt.run provider = (.ok bt2, effs)) :
    ∃ strat, combineStrategy bt.long_stocks bt.short_stocks
        (legPortfolio bt.long_stocks bt.long_weights provider).1
        (legPortfolio bt.short_stocks bt.short_weights provider).1 =
        .ok strat ∧
      bt2 = runResultObject bt provider strat ∧
      effs = (legPortfolio bt.long_stocks bt.long_weights provider).2 ++
        (legPortfolio bt.short_stocks bt.short_weights provider).2 ++
        [Effect.fetch [bt.benchmark]] ++ [Effect.csvWrite "backtest.csv"] := by
  cases hc : combineStrategy bt.long_stocks bt.short_stocks
      (legPortfolio bt.long_stocks bt.long_weights provider).1
      (legPortfolio bt.short_stocks bt.short_weights provider).1 with
  | error e =>
    rw [run_eq_of_combine_error bt provider e hc] at h
    simp at h
  | ok strat =>
    rw [run_eq_of_combine_ok bt provider strat hc] at h
    simp only [Prod.mk.injEq] at h
    obtain ⟨h1, h2⟩ := h
    injection h1 with h1
    exact ⟨strat, rfl, h1.symm, h2.symm⟩

/-- C5 counterexample: with `start_date = "2024-01-01"` after
`end_date = "2023-01-01"`, neither the constructor nor the run raises any
error: construction succeeds, the run completes (its result table is
assembled) and performs its fetches and CSV write — no date validation
exists anywhere in the code. -/
theorem C5_counterexample :
    (Backtest.init ["A"] [] "^GSPC" "2024-01-01" "2023-01-01" none none).map
      (fun bt => (bt.run probeProvider).2) =
      .ok [Effect.fetch ["A"], Effect.fetch ["^GSPC"],
           Effect.csvWrite "backtest.csv"] ∧
    (Backtest.init ["A"] [] "^GSPC" "2024-01-01" "2023-01-01" none none).map
      (fun bt => ((bt.run probeProvider).1.toOption.map
        (fun bt2 => bt2.results.isSome))) = .ok (some true) := by
  exact ⟨rfl, rfl⟩

/-- Every error escaping one leg's weight initialisation is the
`ZeroDivisionError` of the unguarded division or one of its two
`AssertionError` messages. -/
theorem initWeights_error_shape (stocks : List String) (m1 m2 : String)
    (w : Option (List ℚ)) (e : BTError)
    (h : initWeights stocks m1 m2 w = .error e) :
    e = .zeroDivisionError ∨ e = .assertionError m1 ∨
      e = .assertionError m2 := by
  cases w with
  | none => simp [initWeights] at h
  | some ws =>
    simp only [initWeights] at h
    split_ifs at h
    · injection h with h2
      exact Or.inl h2.symm
    · injection h with h2
      exact Or.inr (Or.inl h2.symm)
    · injection h with h2
      exact Or.inr (Or.inr h2.symm)

/-- Every error escaping `__init__` is a `ZeroDivisionError` or one of
the four constructor `AssertionError` messages; since the constructor
has no access to the price provider, all of them are raised before any
fetch. -/
theorem init_error_shape (ls ss : List String) (bm sd ed : String)
    (lw sw : Option (List ℚ)) (e : BTError)
    (h : Backtest.init ls ss bm sd ed lw sw = .error e) :
    e = .zeroDivisionError ∨
    e = .assertionError "Long weights must be the same length as long stocks" ∨
    e = .assertionError "Long weights must sum to 1" ∨
    e = .assertionError "Short weights must be the same length as short stocks" ∨
    e = .assertionError "Short weights must sum to 1" := by
  unfold Backtest.init at h
  cases hl : initWeights ls "Long weights must be the same length as long stocks"
      "Long weights must sum to 1" lw with
  | error e1 =>
    rw [hl, error_bind] at h
    injection h with h2
    rcases initWeights_error_shape _ _ _ _ _ hl with h3 | h3 | h3 <;>
      rw [← h2, h3] <;> tauto
  | ok lws =>
    rw [hl, ok_bind] at h
    cases hs : initWeights ss "Short weights must be the same length as short stocks"
        "Short weights must sum to 1" sw with
    | error e2 =>
      rw [hs, error_bind] at h
      injection h with h2
      rcases initWeights_error_shape _ _ _ _ _ hs with h3 | h3 | h3 <;>
        rw [← h2, h3] <;> tauto
    | ok sws =>
      rw [hs, ok_bind] at h
      exact absurd h (by simp)

/-- C5 amended: every `__init__` error is raised before any fetch (the
constructor has no access to the price provider) and is either the
`ZeroDivisionError` of the unguarded division or one of the four
`AssertionError` messages.  The paths: a supplied NON-empty weight
vector with zero sum raises `ZeroDivisionError`; a normalised-vector
length differing from the leg's stock list raises the length
`AssertionError`, symmetrically per leg; and the exact-equality sum
assert raises the sum `AssertionError` when the machine sum of the
normalised vector is not exactly 1 — in exact arithmetic that happens
precisely for an empty supplied vector with an empty stock list (an
empty supplied vector never divides, so it never raises
`ZeroDivisionError`: with a non-empty stock list it fails the length
assert instead), while under IEEE rounding the program can also hit the
sum assert on valid non-empty vectors (the C4 code bug).  The
both-legs-empty case is not detected eagerly: construction succeeds and
the run fails with `UnboundLocalError` only after the benchmark fetch.
No `start_date`/`end_date` comparison exists (see the counterexample). -/
theorem C5_amended_eager_errors (ls ss : List String) (bm sd ed : String)
    (ws : List ℚ) :
    (∀ (lw sw : Option (List ℚ)) (e : BTError),
      Backtest.init ls ss bm sd ed lw sw = .error e →
      e = .zeroDivisionError ∨
      e = .assertionError "Long weights must be the same length as long stocks" ∨
      e = .assertionError "Long weights must sum to 1" ∨
      e = .assertionError "Short weights must be the same length as short stocks" ∨
      e = .assertionError "Short weights must sum to 1") ∧
    (ws ≠ [] → ws.sum = 0 →
      Backtest.init ls ss bm sd ed (some ws) none =
        .error .zeroDivisionError) ∧
    (ws.sum ≠ 0 → ws.length ≠ ls.length →
      Backtest.init ls ss bm sd ed (some ws) none =
        .error (.assertionError
          "Long weights must be the same length as long stocks")) ∧
    (ws.sum ≠ 0 → ws.length ≠ ss.length →
      Backtest.init ls ss bm sd ed none (some ws) =
        .error (.assertionError
          "Short weights must be the same length as short stocks")) ∧
    (Backtest.init [] ss bm sd ed (some []) none =
      .error (.assertionError "Long weights must sum to 1")) ∧
    (ls ≠ [] → Backtest.init ls ss bm sd ed (some []) none =
      .error (.assertionError
        "Long weights must be the same length as long stocks")) ∧
    (∀ (provider : String → List ℚ) (bt : Backtest),
      Backtest.init [] [] bm sd ed none none = .ok bt →
      bt.run provider =
        (.error (.unboundLocalError "short_portfolio_returns"),
         [Effect.fetch [bm]])) := by
  refine ⟨?_, ?_, ?_, ?_, ?_, ?_, ?_⟩
  · intro lw sw e h
    exact init_error_shape ls ss bm sd ed lw sw e h
  · intro hne hz
    have hguard : ws ≠ [] ∧ ws.sum = 0 := ⟨hne, hz⟩
    simp only [Backtest.init, initWeights, if_pos hguard, error_bind]
  · intro hz hlen
    have hguard : ¬(ws ≠ [] ∧ ws.sum = 0) := fun hcon => hz hcon.2
    have hmap : (ws.map (fun w => w / ws.sum)).length ≠ ls.length := by
      simpa [List.length_map] using hlen
    simp only [Backtest.init, initWeights, if_neg hguard, if_pos hmap,
      error_bind]
  · intro hz hlen
    have hguard : ¬(ws ≠ [] ∧ ws.sum = 0) := fun hcon => hz hcon.2
    have hmap : (ws.map (fun w => w / ws.sum)).length ≠ ss.length := by
      simpa [List.length_map] using hlen
    simp only [Backtest.init, initWeights, ok_bind, if_neg hguard,
      if_pos hmap, error_bind]
  · simp [Backtest.init, initWeights]
  · intro hne
    have h0 : (0 : ℕ) ≠ ls.length :=
      fun h0 => hne (List.length_eq_zero.mp h0.symm)
    simp [Backtest.init, initWeights, h0]
  · intro provider bt h
    have hb : bt = ⟨[], [], [], [], bm, sd, ed, none⟩ := by
      have hinit2 : Backtest.init [] [] bm sd ed none none =
          .ok ⟨[], [], [], [], bm, sd, ed, none⟩ := rfl
      rw [hinit2] at h
      injection h with h2
      exact h2.symm
    subst hb
    simp [Backtest.run, legPortfolio, combineStrategy]

/-- Witness for C5 amended: a non-empty zero-sum weight vector raises
`ZeroDivisionError`; a length-mismatched one raises the long-leg length
`AssertionError`, and the short leg symmetrically; the empty weight
vector on an empty leg raises the sum `AssertionError` (not
`ZeroDivisionError`) and on a non-empty leg the length one; and the
both-empty configuration constructs fine but fails at run time with
`UnboundLocalError` after the benchmark fetch. -/
theorem C5_amended_eager_errors_witness :
    Backtest.init ["A"] [] "^GSPC" "s" "e" (some [1, -1]) none =
      .error .zeroDivisionError ∧
    Backtest.init ["A"] [] "^GSPC" "s" "e" (some [1, 1]) none =
      .error (.assertionError
        "Long weights must be the same length as long stocks") ∧
    Backtest.init [] ["B"] "^GSPC" "s" "e" none (some [1, 1, 1]) =
      .error (.assertionError
        "Short weights must be the same length as short stocks") ∧
    Backtest.init [] [] "^GSPC" "s" "e" (some []) none =
      .error (.assertionError "Long weights must sum to 1") ∧
    Backtest.init ["A"] [] "^GSPC" "s" "e" (some []) none =
      .error (.assertionError
        "Long weights must be the same length as long stocks") ∧
    (⟨[], [], [], [], "^GSPC", "s", "e", none⟩ : Backtest).run
        probeProvider =
      (.error (.unboundLocalError "short_portfolio_returns"),
       [Effect.fetch ["^GSPC"]]) := by
  have h := C5_amended_eager_errors ["A"] [] "^GSPC" "s" "e" [1, -1]
  have h2 := C5_amended_eager_errors ["A"] [] "^GSPC" "s" "e" [1, 1]
  have h3 := C5_amended_eager_errors [] ["B"] "^GSPC" "s" "e" [1, 1, 1]
  have h4 := C5_amended_eager_errors [] [] "^GSPC" "s" "e" []
  have h5 := C5_amended_eager_errors ["A"] [] "^GSPC" "s" "e" []
  exact ⟨h.2.1 (by decide) (by norm_num),
    h2.2.2.1 (by norm_num) (by decide),
    h3.2.2.2.1 (by norm_num) (by decide),
    h4.2.2.2.2.1,
    h5.2.2.2.2.2.1 (by decide),
    h.2.2.2.2.2.2 probeProvider _ rfl⟩

/-- C9 counterexample: a successful run is not free of persistence side
effects — this concrete long-only run completes and its own effect trace
ends with the CSV write of `backtest.csv`, performed by the
`self.save_results()` call inside `run` rather than delegated. -/
theorem C9_counterexample :
    (Backtest.init ["A"] [] "^GSPC" "2023-01-01" "2024-01-01" none none).map
      (fun bt => (bt.run probeProvider).2) =
      .ok [Effect.fetch ["A"], Effect.fetch ["^GSPC"],
           Effect.csvWrite "backtest.csv"] ∧
    (Backtest.init ["A"] [] "^GSPC" "2023-01-01" "2024-01-01" none none).map
      (fun bt => ((bt.run probeProvider).1.toOption.map
        (fun bt2 => bt2.results.isSome))) = .ok (some true) := by
  exact ⟨rfl, rfl⟩

/-- C9 amended: the side effects of a successful `run` are exactly the
per-leg fetches for the populated legs, the benchmark fetch, and one CSV
write of `backtest.csv` — the persistence is performed by `run` itself
(its final `save_results()` call), while plotting is indeed never
performed by `run`. -/
theorem C9_amended_run_side_effects (bt : Backtest)
    (provider : String → List ℚ) (bt2 : Backtest) (effs : List Effect)
    (h : bt.run provider = (.ok bt2, effs)) :
    effs = (if bt.long_stocks = [] then []
        else [Effect.fetch bt.long_stocks]) ++
      (if bt.short_stocks = [] then []
        else [Effect.fetch bt.short_stocks]) ++
      [Effect.fetch [bt.benchmark]] ++ [Effect.csvWrite "backtest.csv"] ∧
    Effect.plot ∉ effs ∧
    Effect.csvWrite "backtest.csv" ∈ effs := by
  obtain ⟨strat, hc, hbt, heffs⟩ := run_ok_destruct bt provider bt2 effs h
  have hshape : effs = (if bt.long_stocks = [] then []
        else [Effect.fetch bt.long_stocks]) ++
      (if bt.short_stocks = [] then []
        else [Effect.fetch bt.short_stocks]) ++
      [Effect.fetch [bt.benchmark]] ++ [Effect.csvWrite "backtest.csv"] := by
    rw [heffs]
    by_cases hl : bt.long_stocks = [] <;>
      by_cases hs : bt.short_stocks = [] <;>
        simp [legPortfolio, hl, hs]
  refine ⟨hshape, ?_, ?_⟩
  · rw [hshape]
    by_cases hl : bt.long_stocks = [] <;>
      by_cases hs : bt.short_stocks = [] <;> simp [hl, hs]
  · rw [hshape]
    simp

/-- Witness for C9 amended: the long-only concrete run returns
successfully with the trace long fetch, benchmark fetch, CSV write, which
contains the CSV write and no plot. -/
theorem C9_amended_run_side_effects_witness :
    Effect.plot ∉ ((⟨["A"], [], [1], [], "^GSPC", "s", "e", none⟩ :
      Backtest).run probeProvider).2 ∧
    Effect.csvWrite "backtest.csv" ∈ ((⟨["A"], [], [1], [], "^GSPC", "s",
      "e", none⟩ : Backtest).run probeProvider).2 := by
  have h := C9_amended_run_side_effects
    ⟨["A"], [], [1], [], "^GSPC", "s", "e", none⟩ probeProvider
    _ _ rfl
  exact ⟨h.2.1, h.2.2⟩

/-- C10: after a successful `__init__` the `results` field is `None`, and
in that state both `plot_results` and `save_results` raise
`ValueError("Results are not available. Please run the backtest
first.")` while performing no plotting or writing; after a successful
`run` the `results` field holds the assembled table and the two
operations no longer raise, plotting and writing respectively. -/
theorem C10_results_lifecycle (ls ss : List String) (bm sd ed : String)
    (lw sw : Option (List ℚ)) (bt : Backtest)
    (h : Backtest.init ls ss bm sd ed lw sw = .ok bt) :
    bt.results = none ∧
    bt.plot_results = (.error (.valueError
      "Results are not available. Please run the backtest first."), []) ∧
    bt.save_results = (.error (.valueError
      "Results are not available. Please run the backtest first."), []) ∧
    (∀ (provider : String → List ℚ) (bt2 : Backtest) (effs : List Effect),
      bt.run provider = (.ok bt2, effs) →
      bt2.results ≠ none ∧
      bt2.plot_results = (.ok (), [.plot]) ∧
      bt2.save_results = (.ok (), [.csvWrite "backtest.csv"])) := by
  have hres := init_ok_results ls ss bm sd ed lw sw bt h
  refine ⟨hres, plot_results_none bt hres, save_results_none bt hres, ?_⟩
  intro provider bt2 effs hrun
  obtain ⟨strat, hc, hbt, heffs⟩ := run_ok_destruct bt provider bt2 effs hrun
  subst hbt
  refine ⟨by simp [runResultObject], plot_results_some _ _ rfl,
    save_results_some _ _ rfl⟩

/-- Witness for C10: the freshly constructed empty-legs object has no
results and both accessors raise the run-first error. -/
theorem C10_results_lifecycle_witness :
    (⟨[], [], [], [], "^GSPC", "s", "e", none⟩ : Backtest).results =
      none ∧
    (⟨[], [], [], [], "^GSPC", "s", "e", none⟩ : Backtest).plot_results =
      (.error (.valueError
        "Results are not available. Please run the backtest first."),
       []) := by
  have h := C10_results_lifecycle [] [] "^GSPC" "s" "e" none none
    ⟨[], [], [], [], "^GSPC", "s", "e", none⟩ rfl
  exact ⟨h.1, h.2.1⟩

/-- Element access in a `zipWith`, in bounds on both sides. -/
theorem zipWith_getD (f : ℚ → ℚ → ℚ) (l1 l2 : List ℚ) (i : ℕ)
    (h1 : i < l1.length) (h2 : i < l2.length) :
    (List.zipWith f l1 l2).getD i 0 = f (l1.getD i 0) (l2.getD i 0) := by
  induction l1 generalizing l2 i with
  | nil => simp at h1
  | cons a l ih =>
    cases l2 with
    | nil => simp at h2
    | cons b l2tl =>
      cases i with
      | zero => simp
      | succ n =>
        simp only [List.zipWith_cons_cons, List.getD_cons_succ]
        exact ih l2tl n (by simpa using h1) (by simpa using h2)

/-- The return series has one entry per price. -/
theorem returnsOfPrices_length (ps : List ℚ) :
    (returnsOfPrices ps).length = ps.length := by
  cases ps with
  | nil => rfl
  | cons p0 rest =>
    simp [returnsOfPrices, List.length_zipWith]

/-- Element access after scaling a column by a weight. -/
theorem getD_map_mul (col : List ℚ) (w : ℚ) (t : ℕ) :
    (col.map (fun x => x * w)).getD t 0 = w * col.getD t 0 := by
  induction col generalizing t with
  | nil => simp
  | cons a l ih =>
    cases t with
    | zero => simp [mul_comm]
    | succ n => simpa using ih n

/-- C2: the per-ticker return series has the same length as the price
series, its first entry is exactly 0 regardless of the first price, its
entry at every later date `t` is `price[t]/price[t-1] - 1`, and the leg's
portfolio return at every date is the dot product of the weight vector
with the per-asset returns at that date. -/
theorem C2_returns_and_portfolio (ps : List ℚ) (t : ℕ)
    (cols : List (List ℚ)) (ws : List ℚ) (T : ℕ) :
    (returnsOfPrices ps).length = ps.length ∧
    (ps ≠ [] → (returnsOfPrices ps).getD 0 0 = 0) ∧
    (0 < t → t < ps.length →
      (returnsOfPrices ps).getD t 0 =
        ps.getD t 0 / ps.getD (t - 1) 0 - 1) ∧
    (t < T → (portfolioReturns cols ws T).getD t 0 =
      (List.zipWith (fun w col => w * col.getD t 0) ws cols).sum) := by
  refine ⟨returnsOfPrices_length ps, ?_, ?_, ?_⟩
  · intro hne
    cases ps with
    | nil => exact absurd rfl hne
    | cons p0 rest => simp [returnsOfPrices]
  · intro ht1 ht2
    cases ps with
    | nil => simp at ht2
    | cons p0 rest =>
      cases t with
      | zero => exact absurd ht1 (by norm_num)
      | succ n =>
        have hn1 : n < rest.length := by simpa using ht2
        have hn2 : n < (p0 :: rest).length := by
          simp only [List.length_cons]; omega
        simp only [returnsOfPrices, List.getD_cons_succ, Nat.add_sub_cancel]
        rw [zipWith_getD _ _ _ _ hn2 hn1]
  · intro htT
    unfold portfolioReturns sumAxis1 scaleCols
    have hb : t < ((List.range T).map (fun t2 =>
        ((List.zipWith (fun col w => col.map (fun x => x * w)) cols ws).map
          (fun col => col.getD t2 0)).sum)).length := by
      simpa using htT
    rw [List.getD_eq_getElem _ _ hb, List.getElem_map, List.getElem_range,
      List.map_zipWith]
    have hfun : (fun (col : List ℚ) (w : ℚ) =>
        (col.map (fun x => x * w)).getD t 0) =
        fun (col : List ℚ) (w : ℚ) => w * col.getD t 0 := by
      funext col w
      exact getD_map_mul col w t
    rw [hfun, List.zipWith_comm (fun w col => w * col.getD t 0) ws cols]

/-- Witness for C2: for prices [100, 110, 99] the return at date 1 is
110/100 - 1 = 1/10, and a two-asset equal-weight portfolio with per-asset
returns 1/10 and 3/10 at date 1 returns their average 1/5. -/
theorem C2_returns_and_portfolio_witness :
    (returnsOfPrices [100, 110, 99]).getD 1 0 = 1 / 10 ∧
    (portfolioReturns [[0, 1/10], [0, 3/10]] [1/2, 1/2] 2).getD 1 0 =
      1 / 5 := by
  have h := C2_returns_and_portfolio [100, 110, 99] 1
    [[0, 1/10], [0, 3/10]] [1/2, 1/2] 2
  constructor
  · have h3 := h.2.2.1 (by norm_num) (by simp)
    rw [h3]
    norm_num
  · have h4 := h.2.2.2 (by norm_num)
    rw [h4]
    simp only [List.zipWith_cons_cons, List.zipWith_nil_right,
      List.sum_cons, List.sum_nil, List.getD_cons_succ, List.getD_cons_zero]
    norm_num

/-- The running product has one entry per input entry. -/
theorem cumprodFrom_length (acc : ℚ) (xs : List ℚ) :
    (cumprodFrom acc xs).length = xs.length := by
  induction xs generalizing acc with
  | nil => rfl
  | cons x l ih => simp [cumprodFrom, ih]

/-- Entry `t` of the running product seeded by `acc` is `acc` times the
product of the first `t + 1` entries. -/
theorem cumprodFrom_getD (xs : List ℚ) (acc : ℚ) (t : ℕ)
    (h : t < xs.length) :
    (cumprodFrom acc xs).getD t 0 =
      acc * ∏ i in Finset.range (t + 1), xs.getD i 0 := by
  induction xs generalizing acc t with
  | nil => simp at h
  | cons x l ih =>
    cases t with
    | zero => simp [cumprodFrom, Finset.prod_range_one]
    | succ n =>
      have hn : n < l.length := by simpa using h
      simp only [cumprodFrom, List.getD_cons_succ]
      rw [ih (acc * x) n hn]
      conv_rhs => rw [Finset.prod_range_succ']
      simp only [List.getD_cons_succ, List.getD_cons_zero]
      ring

/-- C3: the engine's cumulative return series satisfies
`cumulative[t] = (1+r[0])*...*(1+r[t]) - 1` at every index, for a
constant return series `r[t] = c` it equals `(1+c)^(t+1) - 1`, and a
successful run stores series of exactly this compounded form for both the
strategy and the benchmark columns. -/
theorem C3_cumulative_compounding (rs : List ℚ) (t : ℕ)
    (h : t < rs.length) :
    (cumulativeReturns rs).length = rs.length ∧
    (cumulativeReturns rs).getD t 0 =
      (∏ i in Finset.range (t + 1), (1 + rs.getD i 0)) - 1 ∧
    (∀ (c : ℚ) (n : ℕ), rs = List.replicate n c →
      (cumulativeReturns rs).getD t 0 = (1 + c) ^ (t + 1) - 1) ∧
    (∀ (bt : Backtest) (provider : String → List ℚ) (bt2 : Backtest)
        (effs : List Effect), bt.run provider = (.ok bt2, effs) →
      ∃ strat, bt2.results = some (ResultsTable.mk
        (cumulativeReturns strat)
        (cumulativeReturns (returnsOfPrices (provider bt.benchmark))))) := by
  have hlen : (cumulativeReturns rs).length = rs.length := by
    unfold cumulativeReturns
    rw [List.length_map, cumprodFrom_length, List.length_map]
  have hmain : (cumulativeReturns rs).getD t 0 =
      (∏ i in Finset.range (t + 1), (1 + rs.getD i 0)) - 1 := by
    have hlen1 : t < (rs.map (fun r => 1 + r)).length := by
      rw [List.length_map]; exact h
    have hb : t < ((cumprodFrom 1 (rs.map (fun r => 1 + r))).map
        (fun x => x - 1)).length := by
      rw [List.length_map, cumprodFrom_length, List.length_map]; exact h
    unfold cumulativeReturns
    rw [List.getD_eq_getElem _ _ hb, List.getElem_map,
      ← List.getD_eq_getElem _ 0 (by rw [cumprodFrom_length]; exact hlen1),
      cumprodFrom_getD _ _ _ hlen1, one_mul]
    congr 1
    apply Finset.prod_congr rfl
    intro i hi
    have hi2 : i < rs.length := by
      have h3 := Finset.mem_range.mp hi
      omega
    rw [List.getD_eq_getElem _ 0 (by rw [List.length_map]; exact hi2),
      List.getElem_map, ← List.getD_eq_getElem _ 0 hi2]
  refine ⟨hlen, hmain, ?_, ?_⟩
  · intro c n hrep
    subst hrep
    rw [hmain]
    have hn : t < n := by simpa using h
    have hconst : ∀ i ∈ Finset.range (t + 1),
        (1 + (List.replicate n c).getD i 0) = 1 + c := by
      intro i hi
      have hi2 : i < n := by
        have h3 := Finset.mem_range.mp hi
        omega
      rw [List.getD_eq_getElem _ 0 (by simpa using hi2),
        List.getElem_replicate]
    rw [Finset.prod_congr rfl hconst, Finset.prod_const, Finset.card_range]
  · intro bt provider bt2 effs hrun
    obtain ⟨strat, hc, hbt, heffs⟩ := run_ok_destruct bt provider bt2 effs hrun
    exact ⟨strat, by rw [hbt]; rfl⟩

/-- Witness for C3: the constant return series [1/10, 1/10] compounds to
(1 + 1/10)^2 - 1 = 21/100 at index 1. -/
theorem C3_cumulative_compounding_witness :
    (cumulativeReturns [1/10, 1/10]).getD 1 0 = 21 / 100 := by
  have h := (C3_cumulative_compounding [1/10, 1/10] 1 (by simp)).2.2.1
    (1/10) 2 rfl
  rw [h]
  norm_num

/-- The simulated series is the per-date image of the anchored
compounding formula (collapsing the three `map`s of the source). -/
theorem simulatedPricesOf_eq_map (prices : List ℝ) (dates : List ℤ)
    (g : ℝ) :
    simulatedPricesOf prices dates g = dates.map (fun date =>
      prices.headD 0 *
        (1 + g / 100) ^ ((((date - dates.headD 0 : ℤ)) : ℝ) / 365)) := by
  unfold simulatedPricesOf
  rw [List.map_map, List.map_map]
  rfl

/-- C6: the simulated series has exactly one value per date of the actual
series; at every date `t` it equals
`initial_price * (1 + growth_rate/100) ^ (days/365)` with `days` the day
count from the first date; the first date itself yields the initial
price; with zero growth rate the series is constantly the initial price;
and a day count of exactly 365 yields the factor `1 + growth_rate/100`
exactly. -/
theorem C6_growth_simulation (prices : List ℝ) (dates : List ℤ) (g : ℝ)
    (t : ℕ) (ht : t < dates.length) :
    (simulatedPricesOf prices dates g).length = dates.length ∧
    (simulatedPricesOf prices dates g).getD t 0 =
      prices.headD 0 *
        (1 + g / 100) ^ ((((dates.getD t 0 - dates.headD 0 : ℤ)) : ℝ) / 365) ∧
    (dates ≠ [] →
      (simulatedPricesOf prices dates g).getD 0 0 = prices.headD 0) ∧
    (g = 0 →
      (simulatedPricesOf prices dates g).getD t 0 = prices.headD 0) ∧
    (dates.getD t 0 - dates.headD 0 = 365 →
      (simulatedPricesOf prices dates g).getD t 0 =
        prices.headD 0 * (1 + g / 100)) := by
  have hmain : (simulatedPricesOf prices dates g).getD t 0 =
      prices.headD 0 *
        (1 + g / 100) ^ ((((dates.getD t 0 - dates.headD 0 : ℤ)) : ℝ) / 365) := by
    rw [simulatedPricesOf_eq_map]
    rw [List.getD_eq_getElem _ 0 (by simpa using ht), List.getElem_map,
      ← List.getD_eq_getElem _ 0 ht]
  refine ⟨by rw [simulatedPricesOf_eq_map, List.length_map], hmain, ?_, ?_, ?_⟩
  · intro hne
    cases dates with
    | nil => exact absurd rfl hne
    | cons d0 tl =>
      rw [simulatedPricesOf_eq_map]
      simp [Real.rpow_zero]
  · intro hg
    subst hg
    rw [hmain]
    norm_num [Real.one_rpow]
  · intro hd
    rw [hmain, hd]
    norm_num [Real.rpow_one]

/-- Witness for C6: with the single actual price 100 and dates 0 and 365,
the simulated price one year out at a 10 percent rate is exactly
100 * (1 + 10/100). -/
theorem C6_growth_simulation_witness :
    (simulatedPricesOf [100] [0, 365] 10).getD 1 0 = 100 * (1 + 10 / 100) := by
  have h := (C6_growth_simulation [100] [0, 365] 10 1 (by norm_num)).2.2.2.2
    (by decide)
  simpa using h

/-- C8: with an empty fetched price frame, `simulate` raises the
no-data `ValueError`, wrapped by the catch-all into the error-simulating
`ValueError` that carries the canonicalised ticker and the underlying
message; any fetch error is wrapped the same way; and the result depends
only on the first (single) fetch — no retry happens. -/
theorem C8_simulate_failures (stock : String) (g : ℝ)
    (fetch fetch2 : ℕ → Except String (List ℝ × List ℤ)) :
    (∀ dates, fetch 0 = .ok ([], dates) →
      simulate stock g fetch = .error (.valueError
        ("Error simulating " ++ format_crypto_symbol stock ++ ": " ++
         ("No data found for ticker " ++ format_crypto_symbol stock)))) ∧
    (∀ e, fetch 0 = .error e →
      simulate stock g fetch = .error (.valueError
        ("Error simulating " ++ format_crypto_symbol stock ++ ": " ++ e))) ∧
    (fetch 0 = fetch2 0 → simulate stock g fetch = simulate stock g fetch2) := by
  refine ⟨?_, ?_, ?_⟩
  · intro dates hf
    simp only [simulate, hf, List.isEmpty_nil, if_true]
  · intro e hf
    simp only [simulate, hf]
  · intro hf
    simp only [simulate, hf]

/-- Witness for C8: simulating "btc" against an empty price frame yields
the wrapped no-data error naming the canonicalised ticker BTC-USD. -/
theorem C8_simulate_failures_witness :
    simulate "btc" 10 (fun _ => .ok ([], [])) =
      .error (.valueError
        "Error simulating BTC-USD: No data found for ticker BTC-USD") := by
  have h := (C8_simulate_failures "btc" 10 (fun _ => .ok ([], []))
    (fun _ => .ok ([], []))).1 [] rfl
  rw [h]
  have hfmt : format_crypto_symbol "btc" = "BTC-USD" := by decide
  rw [hfmt]
  have hstr : ("Error simulating " ++ "BTC-USD" ++ ": " ++
      ("No data found for ticker " ++ "BTC-USD")) =
      "Error simulating BTC-USD: No data found for ticker BTC-USD" := by
    decide
  rw [hstr]

end PortfolioWizard
